import Mathlib

/-!
Verification of the audio-streaming repository's core components against its
natural-language specification.  The development shallowly embeds:

* the server-side chunk sender (`src/server/index.js`, the `dataChannel.onopen`
  handler and its inner `sendChunk` loop);
* the client-side connection lifecycle (`useWebRTCConnection`: `handleReconnect`,
  `connect`, `disconnect`, `dataChannel.onopen`, `onconnectionstatechange`);
* the auto-start playback effects (`useAutoStartPlayback`);
* the buffer-replacement effect (`useBufferReplacement`);
* the playback handlers (`useAudioPlayback`: `onEnded`,
  `getCurrentPlaybackPosition`);
* the progressive decoder (`useAudioDecoder`: `tryDecode`, `addChunk`).

Machine reals (JS numbers) are modelled as rationals; byte buffers as lists of
naturals; timers as explicit `Option` fields holding the scheduled delay.
-/

namespace AudioStreaming

/-! ## Server chunk sender (src/server/index.js) -/

/-- Chunk size, `CHUNK_SIZE = 64 * 1024`, from src/server/index.js. -/
def CHUNK_SIZE : Nat := 64 * 1024

/-- Flow-control high-water mark `256 * 1024` from the `bufferedAmount` check. -/
def HIGH_WATER_MARK : Nat := 256 * 1024

/-- Pacing delay of `setTimeout(sendChunk, 50)`. -/
def SEND_INTERVAL_MS : Nat := 50

/-- Messages the server can emit on the data channel. -/
inductive Msg where
  | metadata (totalSize totalChunks chunkSize : Nat)
  | chunk (index : Nat) (bytes : List Nat)
  | complete
  | error (message : String)
deriving DecidableEq

/-- What one invocation of `sendChunk` observes about its environment:
whether `dataChannel.readyState === 'open'`, whether
`peerConnection.connectionState` is none of failed/disconnected/closed,
the current `dataChannel.bufferedAmount`, and whether `dataChannel.send`
throws on this invocation. -/
structure Obs where
  channelOpen : Bool
  connOk : Bool
  bufferedAmount : Nat
  sendThrows : Bool
deriving DecidableEq

/-- The sender's mutable state: the streaming cursor `chunkIndex`, the
`streamingActive` flag, and the pending `chunkTimeoutId` timer (modelled as
the scheduled delay, `none` when no call is pending). -/
structure SenderState where
  chunkIndex : Nat
  streamingActive : Bool
  chunkTimeout : Option Nat
deriving DecidableEq

/-- Total chunk count, `Math.ceil(totalBytes / CHUNK_SIZE)`. -/
def totalChunksOf (totalBytes : Nat) : Nat :=
  (totalBytes + CHUNK_SIZE - 1) / CHUNK_SIZE

/-- Chunk `i` of the asset: `audioBuffer.slice(start, end)` with `start = i * CHUNK_SIZE` and
`end = Math.min(start + CHUNK_SIZE, audioBuffer.length)`. -/
def chunkSlice (asset : List Nat) (i : Nat) : List Nat :=
  let start := i * CHUNK_SIZE
  let stop := min (start + CHUNK_SIZE) asset.length
  (asset.drop start).take (stop - start)

/-- One invocation of the inner `sendChunk` closure (src/server/index.js
lines 126-168).  Returns the updated state and the messages sent during this
invocation.  Mirrors the source: the stop-guard clears the timer and returns;
at `chunkIndex >= totalChunks` it sends `complete` and deactivates; otherwise
it sends the current chunk only when `bufferedAmount` is strictly below the
high-water mark (a throwing send deactivates and returns), and finally
reschedules itself after 50ms iff `chunkIndex < totalChunks` and still
active. -/
def sendChunk (asset : List Nat) (o : Obs) (s : SenderState) :
    SenderState × List Msg :=
  let totalChunks := totalChunksOf asset.length
  if ¬s.streamingActive ∨ ¬o.channelOpen ∨ ¬o.connOk then
    ({ s with chunkTimeout := none }, [])
  else if s.chunkIndex ≥ totalChunks then
    ({ s with streamingActive := false, chunkTimeout := none }, [Msg.complete])
  else if o.bufferedAmount < HIGH_WATER_MARK ∧ o.sendThrows then
    ({ s with streamingActive := false, chunkTimeout := none }, [])
  else
    let s1 := if o.bufferedAmount < HIGH_WATER_MARK
      then { s with chunkIndex := s.chunkIndex + 1 } else s
    let msgs := if o.bufferedAmount < HIGH_WATER_MARK
      then [Msg.chunk s.chunkIndex (chunkSlice asset s.chunkIndex)] else []
    if s1.chunkIndex < totalChunks ∧ s1.streamingActive then
      ({ s1 with chunkTimeout := some SEND_INTERVAL_MS }, msgs)
    else
      ({ s1 with chunkTimeout := none }, msgs)

/-- Drives the `sendChunk` loop: the head observation feeds the current
invocation, and the loop continues (consuming further observations) exactly
while the invocation left a timer pending. -/
def runSender (asset : List Nat) : SenderState → List Obs → SenderState × List Msg
  | s, [] => (s, [])
  | s, o :: rest =>
    let step := sendChunk asset o s
    match step.1.chunkTimeout with
    | none => step
    | some _ =>
      let next := runSender asset step.1 rest
      (next.1, step.2 ++ next.2)

/-- Initial sender state at the top of `dataChannel.onopen`'s streaming block:
cursor 0, `streamingActive = true`, no timer pending. -/
def senderInitState : SenderState :=
  { chunkIndex := 0, streamingActive := true, chunkTimeout := none }

/-- The metadata message sent first by `dataChannel.onopen`. -/
def metadataMsg (asset : List Nat) : Msg :=
  Msg.metadata asset.length (totalChunksOf asset.length) CHUNK_SIZE

/-- A whole streaming session after the data channel opens with a readable
asset: the metadata message followed by everything the `sendChunk` loop emits
under the given sequence of observations (one observation per invocation,
starting with the direct `sendChunk()` call). -/
def streamSession (asset : List Nat) (obs : List Obs) : List Msg :=
  metadataMsg asset :: (runSender asset senderInitState obs).2

/-- An observation for the uninterrupted case: channel open, connection
healthy, empty send queue, no send failure. -/
def goodObs : Obs :=
  { channelOpen := true, connOk := true, bufferedAmount := 0, sendThrows := false }

/-- An observation under backpressure: channel healthy but the queued-bytes
gauge exactly at the high-water mark. -/
def congestedObs : Obs :=
  { channelOpen := true, connOk := true, bufferedAmount := HIGH_WATER_MARK,
    sendThrows := false }

/-- The indices of the chunk messages in an emission, in order. -/
def sentIndices (msgs : List Msg) : List Nat :=
  msgs.filterMap fun m =>
    match m with
    | Msg.chunk i _ => some i
    | _ => none

/-! ## Connection lifecycle (useWebRTCConnection) -/

/-- Retry cap `config.maxReconnectAttempts` from src/config.js. -/
def maxReconnectAttempts : Nat := 3

/-- The connection manager's state: the `reconnectAttemptRef` counter, the
`manualDisconnectRef` flag, the pending `reconnectTimeoutRef` (modelled as the
scheduled delay in ms), and the `isConnected` / `isConnecting` flags. -/
structure ConnState where
  reconnectAttempt : Nat
  manualDisconnect : Bool
  reconnectTimer : Option Nat
  isConnected : Bool
  isConnecting : Bool
deriving DecidableEq

/-- Initial state of `useWebRTCConnection`'s refs and state hooks. -/
def connInitState : ConnState :=
  { reconnectAttempt := 0, manualDisconnect := false, reconnectTimer := none,
    isConnected := false, isConnecting := false }

/-- Reconnection policy `handleReconnect(isAuto)`: returns unchanged under a manual disconnect;
otherwise, when the attempt counter is below the maximum and the session was
auto-triggered, increments the counter and schedules a reconnect after
`Math.min(1000 * 2^(attempt-1), 5000)` ms. -/
def handleReconnect (isAuto : Bool) (s : ConnState) : ConnState :=
  if s.manualDisconnect then s
  else if s.reconnectAttempt < maxReconnectAttempts ∧ isAuto then
    let attempt := s.reconnectAttempt + 1
    { s with reconnectAttempt := attempt,
             reconnectTimer := some (min (1000 * 2 ^ (attempt - 1)) 5000) }
  else s

/-- The `'disconnected'` / `'failed'` case of
`peerConnection.onconnectionstatechange`: clears the connected/connecting
flags, runs `handleReconnect(isAuto)`, and surfaces the terminal error
callback exactly when the resulting attempt counter has reached the maximum.
The boolean result records whether `onError` was invoked. -/
def onConnectionFailure (isAuto : Bool) (s : ConnState) : ConnState × Bool :=
  let s1 := { s with isConnected := false, isConnecting := false }
  let s2 := handleReconnect isAuto s1
  (s2, decide (s2.reconnectAttempt ≥ maxReconnectAttempts))

/-- Open handler `dataChannel.onopen`: marks connected and resets the attempt counter. -/
def dataChannelOnOpen (s : ConnState) : ConnState :=
  { s with isConnected := true, isConnecting := false, reconnectAttempt := 0 }

/-- Manual `disconnect()`: sets the manual flag, runs `cleanup()` (which clears the
pending reconnect timer and closes channel and peer connection), and clears
both connection flags.  Note it does not touch `reconnectAttemptRef`. -/
def disconnect (s : ConnState) : ConnState :=
  { s with manualDisconnect := true, reconnectTimer := none,
           isConnected := false, isConnecting := false }

/-- The synchronous opening portion of `connect(options)`: a no-op when already
connected; otherwise clears the manual flag, signals connecting, and runs
`cleanup()` (clearing any pending reconnect timer). -/
def connectStart (s : ConnState) : ConnState :=
  if s.isConnected then s
  else { s with manualDisconnect := false, isConnected := false,
                isConnecting := true, reconnectTimer := none }

/-! ## Auto-start playback effects (useAutoStartPlayback) -/

/-- Buffering threshold `config.bufferThresholdSeconds` from src/config.js. -/
def bufferThresholdSeconds : ℚ := 10

/-- The snapshot of props the two `useAutoStartPlayback` effects read during
one render. -/
structure AutoStartInput where
  isBuffering : Bool
  bufferedSeconds : ℚ
  isPlaying : Bool
  isPaused : Bool
  hasUserGesture : Bool
  hasDecodedBuffer : Bool
deriving DecidableEq

/-- The first `useAutoStartPlayback` effect: when buffering with the
threshold met, not playing or paused, a user gesture recorded, and a decoded
buffer present, it clears the buffering flag and calls `play`.  Returns the
resulting buffering flag and whether `play` was invoked. -/
def autoStartEffect (i : AutoStartInput) : Bool × Bool :=
  let shouldAutoStart :=
    i.isBuffering = true ∧ i.bufferedSeconds ≥ bufferThresholdSeconds ∧
    i.isPlaying = false ∧ i.isPaused = false ∧
    i.hasUserGesture = true ∧ i.hasDecodedBuffer = true
  if shouldAutoStart then (false, i.hasDecodedBuffer)
  else (i.isBuffering, false)

/-- The second `useAutoStartPlayback` effect ("Clear buffering state when we
have enough audio"): when the threshold is met while buffering and not
playing, and no user gesture has occurred, it clears the buffering flag. -/
def clearBufferingEffect (i : AutoStartInput) : Bool :=
  if i.bufferedSeconds ≥ bufferThresholdSeconds ∧ i.isBuffering = true ∧
      i.isPlaying = false then
    if i.hasUserGesture = false then false else i.isBuffering
  else i.isBuffering

/-- One render cycle of `useAutoStartPlayback`: both effects observe the same
snapshot; the resulting buffering flag is false when either effect cleared
it, and the boolean records whether playback was started. -/
def autoStartRender (i : AutoStartInput) : Bool × Bool :=
  let first := autoStartEffect i
  (first.1 && clearBufferingEffect i, first.2)

/-! ## Buffer replacement (useBufferReplacement) -/

/-- The decision body of the `useBufferReplacement` effect, given whether
playback is active, the current decoded buffer's duration (if any), the
`lastBufferDurationRef` baseline, and the current playback position returned
by `getCurrentPlaybackPosition`.  Returns `some (newBaseline, playPosition)`
when the effect replaces the playing source (calling `play` preserves the
position), and `none` when it does nothing. -/
def bufferReplacementStep (isPlaying : Bool) (decoded : Option ℚ)
    (lastBufferDuration currentPosition : ℚ) : Option (ℚ × ℚ) :=
  if ¬isPlaying then none
  else
    match decoded with
    | none => none
    | some currentDuration =>
      let hasNewContent := currentDuration > lastBufferDuration * (1.1 : ℚ)
      if hasNewContent then
        let remainingContent := currentDuration - currentPosition
        let shouldReplace := remainingContent > 5 ∨
          (currentDuration > lastBufferDuration * (1.1 : ℚ) ∧
           currentDuration > lastBufferDuration + 2)
        if shouldReplace then some (currentDuration, currentPosition) else none
      else none

/-! ## Playback refs and handlers (useAudioPlayback) -/

/-- The mutable refs of `useAudioPlayback` relevant to `onEnded` and
`getCurrentPlaybackPosition`: the active source node (identified by a tag,
`none` when no source is active), `startTimeRef`, `playbackOffsetRef`,
`currentBufferDurationRef`, and the `isPlaying` state. -/
structure PlaybackRefs where
  sourceNode : Option Nat
  startTime : ℚ
  playbackOffset : ℚ
  currentBufferDuration : ℚ
  isPlaying : Bool
deriving DecidableEq

/-- The `onEnded` handler installed by `play` on a source tagged
`firedSource`, with `ctx` the audio context's `currentTime` when one exists.
If the fired source is still the active one and a context exists, it
computes the elapsed position and tears playback down only when that
position is at least 99% of the buffer duration recorded when the source
started; with no context it tears down unconditionally; an `ended` event
from a replaced source is ignored. -/
def onEnded (firedSource : Nat) (ctx : Option ℚ) (s : PlaybackRefs) :
    PlaybackRefs :=
  if s.sourceNode = some firedSource then
    match ctx with
    | some now =>
      let elapsed := now - s.startTime
      let currentPosition := s.playbackOffset + elapsed
      if currentPosition ≥ s.currentBufferDuration * (0.99 : ℚ) then
        { s with sourceNode := none, isPlaying := false,
                 playbackOffset := 0, currentBufferDuration := 0 }
      else s
    | none =>
      { s with sourceNode := none, isPlaying := false,
               playbackOffset := 0, currentBufferDuration := 0 }
  else s

/-- Position query `getCurrentPlaybackPosition()`: 0 when no source node is active or no
audio context exists; otherwise the elapsed position clamped to the recorded
buffer duration.  `ctx` is the context's `currentTime` when one exists. -/
def getCurrentPlaybackPosition (ctx : Option ℚ) (s : PlaybackRefs) : ℚ :=
  match s.sourceNode, ctx with
  | some _, some now =>
    min (s.playbackOffset + (now - s.startTime)) s.currentBufferDuration
  | _, _ => 0

/-! ## Progressive decoder (useAudioDecoder) -/

/-- A decoded audio unit (an `AudioBuffer`), abstracted to its duration. -/
structure AudioBuf where
  duration : ℚ
deriving DecidableEq

/-- The decoder's state: `rawChunksRef`, `accumulatedBufferRef`,
`decodedBuffersRef` (the code keeps at most one entry), `isDecodingRef`,
`lastDecodedBytesRef` and the `bufferedSeconds` state. -/
structure DecoderState where
  rawChunks : List (List Nat)
  accumulatedBuffer : Option (List Nat)
  decodedBuffers : List AudioBuf
  isDecoding : Bool
  lastDecodedBytes : Nat
  bufferedSeconds : ℚ
deriving DecidableEq

/-- The decoder's initial (and post-`reset()`) state. -/
def decoderInitState : DecoderState :=
  { rawChunks := [], accumulatedBuffer := none, decodedBuffers := [],
    isDecoding := false, lastDecodedBytes := 0, bufferedSeconds := 0 }

/-- Estimate `estimateBufferedDuration(totalBytes)` from the buffer-estimation
utilities: `totalBytes / (12 * 1024)` seconds. -/
def estimateBufferedDuration (totalBytes : Nat) : ℚ :=
  (totalBytes : ℚ) / (12 * 1024)

/-- Accumulation `accumulateChunks(chunks)`: the byte-wise concatenation of the chunks in
arrival order, together with the total byte count. -/
def accumulateChunks (chunks : List (List Nat)) : List Nat × Nat :=
  let totalLength := (chunks.map List.length).sum
  (chunks.flatten, totalLength)

/-- Decode attempt `tryDecode(forceMode)`.  `decodeFn` is the platform decoder
(`audioContext.decodeAudioData` on a copy of the accumulated buffer),
returning `none` on a decode failure; `hasCtx` records whether an
`AudioContext` is available.  Early returns (no context, no accumulated
data, or a decode already in flight) and the growth-gate rejection leave the
state untouched.  A successful decode replaces the decoded buffer list with
the single new unit, publishes its duration, and records the snapshot's byte
size; a failed decode is caught and changes nothing (the busy flag is set
before the attempt and cleared in the `finally`, hence unchanged across the
whole call). -/
def tryDecode (decodeFn : List Nat → Option AudioBuf) (hasCtx : Bool)
    (forceMode : Bool) (s : DecoderState) : DecoderState × Option AudioBuf :=
  if hasCtx = false ∨ s.accumulatedBuffer = none ∨ s.isDecoding = true then
    (s, none)
  else
    let snapshot := s.accumulatedBuffer.getD []
    let currentBufferSize := snapshot.length
    let hasGrown := (currentBufferSize : ℚ) > (s.lastDecodedBytes : ℚ) * (1.2 : ℚ)
    let shouldDecode := forceMode = true ∨ s.decodedBuffers.length = 0 ∨ hasGrown
    if ¬shouldDecode then (s, none)
    else
      match decodeFn snapshot with
      | some audioBuffer =>
        ({ s with decodedBuffers := [audioBuffer],
                  bufferedSeconds := audioBuffer.duration,
                  lastDecodedBytes := currentBufferSize }, some audioBuffer)
      | none => (s, none)

/-- Ingestion `addChunk(arrayBuffer)`: appends the chunk, rebuilds the accumulation,
updates the estimate (only while nothing is decoded yet), and triggers a
non-forced decode attempt when the estimate reaches the threshold or the
buffer has grown more than 20% past the last decoded size. -/
def addChunk (decodeFn : List Nat → Option AudioBuf) (hasCtx : Bool)
    (chunk : List Nat) (s : DecoderState) : DecoderState :=
  let rawChunks := s.rawChunks ++ [chunk]
  let acc := accumulateChunks rawChunks
  let totalBytes := acc.2
  let estimatedDuration := estimateBufferedDuration totalBytes
  let s1 : DecoderState :=
    { s with rawChunks := rawChunks
             accumulatedBuffer := some acc.1
             bufferedSeconds := if s.decodedBuffers.length = 0
               then estimatedDuration else s.bufferedSeconds }
  let shouldAttemptDecode :=
    estimatedDuration ≥ bufferThresholdSeconds ∨
    (s1.decodedBuffers.length > 0 ∧
     (totalBytes : ℚ) > (s1.lastDecodedBytes : ℚ) * (1.2 : ℚ))
  if shouldAttemptDecode ∧ s1.isDecoding = false then
    (tryDecode decodeFn hasCtx false s1).1
  else s1

/-- The render snapshot in which the playback coordinator is buffering with
the threshold met and a decoded unit present, but no user gesture has been
recorded yet. -/
def readyNoGestureSnapshot : AutoStartInput :=
  { isBuffering := true, bufferedSeconds := 10, isPlaying := false,
    isPaused := false, hasUserGesture := false, hasDecodedBuffer := true }

/-- Playback refs for the end-signal boundary scenario: an active source
started at context time 0 with offset 0 against a buffer duration of 8s. -/
def endedDemoRefs : PlaybackRefs :=
  { sourceNode := some 0, startTime := 0, playbackOffset := 0,
    currentBufferDuration := 8, isPlaying := true }

/-- Playback refs for the position-clamping scenario: an active source
started at context time 0 with offset 2s against a buffer duration of 8s. -/
def positionDemoRefs : PlaybackRefs :=
  { sourceNode := some 0, startTime := 0, playbackOffset := 2,
    currentBufferDuration := 8, isPlaying := true }

/-- A demo decoded unit of duration 2s. -/
def demoAudioBuf : AudioBuf := { duration := 2 }

/-- A platform decoder that always succeeds with the demo unit. -/
def demoDecodeOkFn : List Nat → Option AudioBuf := fun _ => some demoAudioBuf

/-- A platform decoder that always fails (truncated data). -/
def demoDecodeFailFn : List Nat → Option AudioBuf := fun _ => none

/-- A decoder state holding one accumulated byte and no decoded unit yet. -/
def demoAccState : DecoderState :=
  { rawChunks := [[1]], accumulatedBuffer := some [1], decodedBuffers := [],
    isDecoding := false, lastDecodedBytes := 0, bufferedSeconds := 0 }

/-- The decoder state after `demoAccState` decodes successfully into the
demo unit. -/
def demoDecodedState : DecoderState :=
  { rawChunks := [[1]], accumulatedBuffer := some [1],
    decodedBuffers := [demoAudioBuf], isDecoding := false,
    lastDecodedBytes := 1, bufferedSeconds := 2 }

/-- Session invariant of the decoder: the recorded last-decoded size never
exceeds the accumulated buffer's size, and the accumulated buffer (when
present) is exactly the concatenation of the received chunks. -/
def decoderInv (s : DecoderState) : Prop :=
  s.lastDecodedBytes ≤ (s.accumulatedBuffer.getD []).length ∧
  (s.accumulatedBuffer = none ∨ s.accumulatedBuffer = some s.rawChunks.flatten)

/-! ## Theorems: connection lifecycle (claims C2, C4) -/

/-- C2 counterexample: the claim says the backoff delay scheduled before
reconnection attempt 1 is 500ms; the code schedules
`min(1000 * 2^0, 5000) = 1000` ms on the first auto-triggered failure. -/
theorem c2_counterexample_first_backoff_delay :
    (onConnectionFailure true connInitState).1.reconnectTimer = some 1000 ∧
    (1000 : Nat) ≠ 500 := by
  decide

/-- C2 (amended): with maxReconnectAttempts = 3, from a state with the
attempt counter at 0 and no manual disconnect, three consecutive
auto-triggered connection failures schedule backoff delays of 1000ms, 2000ms
and 4000ms (the code's `min(1000 * 2^(attempt-1), 5000)`) before attempts
1, 2 and 3, leaving reconnectAttempt at 3, and the next failure surfaces a
terminal error to the caller without a fourth retry being scheduled. -/
theorem c2_amended_backoff_schedule (s0 : ConnState)
    (h0 : s0.reconnectAttempt = 0) (h1 : s0.manualDisconnect = false) :
    (onConnectionFailure true s0).1.reconnectTimer = some 1000 ∧
    (onConnectionFailure true s0).1.reconnectAttempt = 1 ∧
    (onConnectionFailure true s0).2 = false ∧
    (onConnectionFailure true
      (connectStart (onConnectionFailure true s0).1)).1.reconnectTimer = some 2000 ∧
    (onConnectionFailure true
      (connectStart (onConnectionFailure true s0).1)).1.reconnectAttempt = 2 ∧
    (onConnectionFailure true
      (connectStart (onConnectionFailure true s0).1)).2 = false ∧
    (onConnectionFailure true (connectStart (onConnectionFailure true
      (connectStart (onConnectionFailure true s0).1)).1)).1.reconnectTimer = some 4000 ∧
    (onConnectionFailure true (connectStart (onConnectionFailure true
      (connectStart (onConnectionFailure true s0).1)).1)).1.reconnectAttempt = 3 ∧
    (onConnectionFailure true (connectStart (onConnectionFailure true
      (connectStart (onConnectionFailure true (connectStart (onConnectionFailure true
        s0).1)).1)).1)).1.reconnectAttempt = 3 ∧
    (onConnectionFailure true (connectStart (onConnectionFailure true
      (connectStart (onConnectionFailure true (connectStart (onConnectionFailure true
        s0).1)).1)).1)).1.reconnectTimer = none ∧
    (onConnectionFailure true (connectStart (onConnectionFailure true
      (connectStart (onConnectionFailure true (connectStart (onConnectionFailure true
        s0).1)).1)).1)).2 = true := by
  obtain ⟨a, m, t, c, g⟩ := s0
  simp only [ConnState.mk.injEq] at h0 h1
  subst h0 h1
  simp [onConnectionFailure, handleReconnect, connectStart, maxReconnectAttempts,
    connInitState]

/-- C2 amended witness: the backoff trace from the initial connection state. -/
theorem c2_amended_backoff_schedule_witness :
    connInitState.reconnectAttempt = 0 ∧ connInitState.manualDisconnect = false ∧
    (onConnectionFailure true connInitState).1.reconnectTimer = some 1000 ∧
    (onConnectionFailure true (connectStart (onConnectionFailure true
      (connectStart (onConnectionFailure true (connectStart (onConnectionFailure true
        connInitState).1)).1)).1)).2 = true :=
  ⟨rfl, rfl, (c2_amended_backoff_schedule connInitState rfl rfl).1,
    (c2_amended_backoff_schedule connInitState rfl rfl).2.2.2.2.2.2.2.2.2.2⟩

/-- C4 counterexample: after two auto-triggered failures the attempt counter
is 2, and a manual `disconnect()` leaves it at 2, not 0 as the claim
states. -/
theorem c4_counterexample_disconnect_keeps_counter :
    (disconnect (onConnectionFailure true (connectStart
      (onConnectionFailure true connInitState).1)).1).reconnectAttempt = 2 ∧
    (2 : Nat) ≠ 0 := by
  decide

/-- C4 (amended): the reconnectAttempt counter equals 0 immediately after
every successful data-channel open; a manual `disconnect()` leaves the
counter unchanged (the code resets it only in `dataChannel.onopen`). -/
theorem c4_amended_counter_reset_on_open_only (s : ConnState) :
    (dataChannelOnOpen s).reconnectAttempt = 0 ∧
    (disconnect s).reconnectAttempt = s.reconnectAttempt :=
  ⟨rfl, rfl⟩

/-! ## Theorems: auto-start playback (claim C3) -/

/-- C3: the claim (and the code's own inline comment) say that when the
buffered estimate has reached the threshold and a decoded unit is present
but no qualifying user gesture has occurred, the coordinator remains in the
buffering state.  The second `useAutoStartPlayback` effect does the
opposite: on the snapshot (buffering, 10s buffered, not playing, not
paused, no gesture, decoded unit present) the render cycle clears the
buffering flag while starting no playback, leaving the buffering state
without a gesture. -/
theorem c3_buffering_cleared_without_gesture :
    autoStartEffect readyNoGestureSnapshot = (true, false) ∧
    clearBufferingEffect readyNoGestureSnapshot = false ∧
    autoStartRender readyNoGestureSnapshot = (false, false) := by
  norm_num [autoStartRender, autoStartEffect, clearBufferingEffect,
    bufferThresholdSeconds, readyNoGestureSnapshot]

/-! ## Theorems: buffer replacement (claim C6) -/

/-- C6: while playback is active with a decoded unit of duration `d`, prior
baseline `L` and current position `pos`, the `useBufferReplacement` effect
replaces the source if and only if `d > L * 1.1` and (`d - pos > 5` or
`d > L + 2`); any replacement restarts at exactly the current position and
updates the baseline to `d`; no replacement happens while not playing; and
in particular a source of baseline duration 8s at position 3s with a new
decoded duration of 9.2s is replaced at position 3s, while growth from 8s
to 8.3s causes no replacement. -/
theorem c6_buffer_replacement_policy :
    (∀ d L pos : ℚ, (bufferReplacementStep true (some d) L pos).isSome ↔
      (d > L * (1.1 : ℚ) ∧ (d - pos > 5 ∨ d > L + 2))) ∧
    (∀ d L pos : ℚ, bufferReplacementStep true (some d) L pos = none ∨
      bufferReplacementStep true (some d) L pos = some (d, pos)) ∧
    (∀ dec L pos, bufferReplacementStep false dec L pos = none) ∧
    bufferReplacementStep true (some (9.2 : ℚ)) 8 3 = some (9.2, 3) ∧
    bufferReplacementStep true (some (8.3 : ℚ)) 8 3 = none := by
  refine ⟨?_, ?_, ?_, ?_, ?_⟩
  · intro d L pos
    rcases Classical.em (d > L * (1.1 : ℚ)) with hP | hP <;>
      rcases Classical.em (d - pos > 5) with hQ | hQ <;>
      rcases Classical.em (d > L + 2) with hR | hR <;>
      simp [bufferReplacementStep, hP, hQ, hR]
  · intro d L pos
    rcases Classical.em (d > L * (1.1 : ℚ)) with hP | hP <;>
      rcases Classical.em (d - pos > 5) with hQ | hQ <;>
      rcases Classical.em (d > L + 2) with hR | hR <;>
      simp [bufferReplacementStep, hP, hQ, hR]
  · intro dec L pos
    simp [bufferReplacementStep]
  · norm_num [bufferReplacementStep]
  · norm_num [bufferReplacementStep]

/-! ## Theorems: end-of-content detection (claim C8) -/

/-- C8: when the `ended` signal fires for the active source while an audio
context exists, the handler terminates playback — clearing the source,
leaving the playing state and resetting the offset — exactly when the
computed elapsed position `playbackOffset + (now - startTime)` is at least
99% of the buffer duration recorded when the source started; below the
threshold the state is left unchanged.  In particular an end signal at
elapsed position 7.9s against an active duration of 8s is ignored. -/
theorem c8_end_signal_threshold (s : PlaybackRefs) (src : Nat) (now : ℚ)
    (hsrc : s.sourceNode = some src) :
    (s.playbackOffset + (now - s.startTime) < s.currentBufferDuration * (0.99 : ℚ) →
      onEnded src (some now) s = s) ∧
    (s.playbackOffset + (now - s.startTime) ≥ s.currentBufferDuration * (0.99 : ℚ) →
      onEnded src (some now) s =
        { s with sourceNode := none, isPlaying := false,
                 playbackOffset := 0, currentBufferDuration := 0 }) ∧
    (onEnded src (some now) s ≠ s →
      s.playbackOffset + (now - s.startTime) ≥ s.currentBufferDuration * (0.99 : ℚ)) := by
  refine ⟨?_, ?_, ?_⟩
  · intro hlt
    simp [onEnded, hsrc, not_le.mpr hlt]
  · intro hge
    simp [onEnded, hsrc, hge]
  · intro hne
    by_contra hlt
    exact hne (by simp [onEnded, hsrc, not_le.mpr (not_le.mp hlt)])

/-- C8 witness: a source started with buffer duration 8s, offset 0, start
time 0, receiving its `ended` signal at context time 7.9s (position 7.9s,
98.75% of 8s): the handler leaves the playback state unchanged. -/
theorem c8_end_signal_threshold_witness :
    (0 : ℚ) + ((7.9 : ℚ) - 0) < (8 : ℚ) * (0.99 : ℚ) ∧
    onEnded 0 (some (7.9 : ℚ)) endedDemoRefs = endedDemoRefs :=
  ⟨by norm_num,
    (c8_end_signal_threshold endedDemoRefs 0 (7.9 : ℚ) rfl).1 (by norm_num [endedDemoRefs])⟩

/-! ## Theorems: playback position (claim C10) -/

/-- C10: `getCurrentPlaybackPosition` returns 0 when no source node is
active or no audio context exists; otherwise it returns the minimum of the
elapsed position `playbackOffset + (now - startTime)` and the recorded
duration of the currently playing decoded unit; and whenever that duration
is nonnegative the reported position never exceeds it. -/
theorem c10_position_clamped (ctx : Option ℚ) (s : PlaybackRefs) :
    (s.sourceNode = none ∨ ctx = none → getCurrentPlaybackPosition ctx s = 0) ∧
    (∀ src : Nat, ∀ now : ℚ, s.sourceNode = some src → ctx = some now →
      getCurrentPlaybackPosition ctx s =
        min (s.playbackOffset + (now - s.startTime)) s.currentBufferDuration) ∧
    (0 ≤ s.currentBufferDuration →
      getCurrentPlaybackPosition ctx s ≤ s.currentBufferDuration) := by
  refine ⟨?_, ?_, ?_⟩
  · rintro (h | h) <;> simp [getCurrentPlaybackPosition, h]
  · intro src now hs hc
    subst hc
    simp [getCurrentPlaybackPosition, hs]
  · intro hd
    cases hs : s.sourceNode with
    | none => simpa [getCurrentPlaybackPosition, hs] using hd
    | some src =>
      cases hc : ctx with
      | none => simpa [getCurrentPlaybackPosition, hs, hc] using hd
      | some now =>
        simp only [getCurrentPlaybackPosition, hs, hc]
        exact min_le_right _ _

/-- C10 witness: with an active source, offset 2s, start time 0 and context
time 50s against a buffer duration of 8s, the reported position is the
clamped minimum and does not exceed the duration. -/
theorem c10_position_clamped_witness :
    getCurrentPlaybackPosition (some (50 : ℚ)) positionDemoRefs =
      min ((2 : ℚ) + ((50 : ℚ) - 0)) (8 : ℚ) ∧
    getCurrentPlaybackPosition (some (50 : ℚ)) positionDemoRefs ≤ (8 : ℚ) :=
  ⟨(c10_position_clamped (some (50 : ℚ)) positionDemoRefs).2.1 0 50 rfl rfl,
    (c10_position_clamped (some (50 : ℚ)) positionDemoRefs).2.2
      (by norm_num [positionDemoRefs])⟩

/-! ## Sender lemmas -/

/-- Every `sendChunk` invocation either sends nothing and leaves the cursor
alone, or sends exactly the chunk at the cursor and advances it by one. -/
theorem sendChunk_indices (asset : List Nat) (o : Obs) (s : SenderState) :
    (sentIndices (sendChunk asset o s).2 = [] ∧
      (sendChunk asset o s).1.chunkIndex = s.chunkIndex) ∨
    (sentIndices (sendChunk asset o s).2 = [s.chunkIndex] ∧
      (sendChunk asset o s).1.chunkIndex = s.chunkIndex + 1) := by
  simp only [sendChunk]
  split_ifs <;> simp [sentIndices]

/-- A `sendChunk` invocation reschedules itself only with the cursor still
strictly below `totalChunks` and streaming still active. -/
theorem sendChunk_timeout_lt (asset : List Nat) (o : Obs) (s : SenderState)
    (h : (sendChunk asset o s).1.chunkTimeout ≠ none) :
    (sendChunk asset o s).1.chunkIndex < totalChunksOf asset.length ∧
    (sendChunk asset o s).1.streamingActive = true := by
  revert h
  simp only [sendChunk]
  split_ifs with h1 h2 h3 h4 <;> simp_all

/-- A `sendChunk` invocation entered with the cursor still strictly below
`totalChunks` never emits the `complete` message. -/
theorem sendChunk_no_complete (asset : List Nat) (o : Obs) (s : SenderState)
    (h : s.chunkIndex < totalChunksOf asset.length) :
    Msg.complete ∉ (sendChunk asset o s).2 := by
  simp only [sendChunk]
  split_ifs with h1 h2 <;> simp_all
  omega

/-- Along any run of the `sendChunk` loop the cursor never moves backwards,
and the chunk indices emitted are exactly the consecutive range from the
starting cursor to the final cursor: no index skipped, none repeated. -/
theorem runSender_indices (asset : List Nat) (obs : List Obs) :
    ∀ s : SenderState,
      s.chunkIndex ≤ (runSender asset s obs).1.chunkIndex ∧
      sentIndices (runSender asset s obs).2 =
        List.range' s.chunkIndex
          ((runSender asset s obs).1.chunkIndex - s.chunkIndex) := by
  induction obs with
  | nil =>
    intro s
    simp [runSender, sentIndices]
  | cons o rest ih =>
    intro s
    rcases htm : (sendChunk asset o s).1.chunkTimeout with _ | d
    · rcases sendChunk_indices asset o s with ⟨hm, hi⟩ | ⟨hm, hi⟩ <;>
        simp [runSender, htm, hm, hi, List.range']
    · obtain ⟨ihle, ihm⟩ := ih (sendChunk asset o s).1
      rcases sendChunk_indices asset o s with ⟨hm, hi⟩ | ⟨hm, hi⟩
      · constructor
        · simp only [runSender, htm]
          omega
        · simp only [runSender, htm, sentIndices, List.filterMap_append]
          rw [← sentIndices, ← sentIndices, hm, ihm, hi]
          simp
      · constructor
        · simp only [runSender, htm]
          omega
        · simp only [runSender, htm, sentIndices, List.filterMap_append]
          rw [← sentIndices, ← sentIndices, hm, ihm, hi]
          have hfin : s.chunkIndex + 1 ≤ (runSender asset (sendChunk asset o s).1 rest).1.chunkIndex := by
            omega
          rw [show (runSender asset (sendChunk asset o s).1 rest).1.chunkIndex - s.chunkIndex =
            ((runSender asset (sendChunk asset o s).1 rest).1.chunkIndex - (s.chunkIndex + 1)) + 1
            from by omega]
          rw [List.range'_succ]
          simp

/-- A run of the `sendChunk` loop entered with the cursor strictly below
`totalChunks` never emits the `complete` message: once the cursor reaches
`totalChunks` the loop is simply never rescheduled. -/
theorem runSender_no_complete (asset : List Nat) (obs : List Obs) :
    ∀ s : SenderState, s.chunkIndex < totalChunksOf asset.length →
      Msg.complete ∉ (runSender asset s obs).2 := by
  induction obs with
  | nil =>
    intro s _
    simp [runSender]
  | cons o rest ih =>
    intro s hlt
    rcases htm : (sendChunk asset o s).1.chunkTimeout with _ | d
    · simpa [runSender, htm] using sendChunk_no_complete asset o s hlt
    · have hnext := sendChunk_timeout_lt asset o s (by simp [htm])
      simp only [runSender, htm, List.mem_append]
      push_neg
      exact ⟨sendChunk_no_complete asset o s hlt, ih _ hnext.1⟩

/-- For a nonempty asset the chunk count is positive. -/
theorem totalChunksOf_pos (asset : List Nat) (h : asset ≠ []) :
    0 < totalChunksOf asset.length := by
  have hlen : 1 ≤ asset.length := List.length_pos.mpr h
  have : CHUNK_SIZE ≤ asset.length + CHUNK_SIZE - 1 := by
    simp only [CHUNK_SIZE]
    omega
  simpa [totalChunksOf] using Nat.one_le_div_iff (by norm_num [CHUNK_SIZE]) |>.mpr this

/-- Under uninterrupted observations (channel open, healthy connection,
empty send queue, no send failure), a run of the `sendChunk` loop started
at cursor `i` with `n` invocations remaining to reach `totalChunks` emits
exactly chunks `i, i+1, ..., i+n-1` in order. -/
theorem runSender_good (asset : List Nat) :
    ∀ (n : Nat) (s : SenderState), s.streamingActive = true →
      s.chunkIndex + n = totalChunksOf asset.length →
      (runSender asset s (List.replicate n goodObs)).2 =
        (List.range' s.chunkIndex n).map (fun k => Msg.chunk k (chunkSlice asset k)) := by
  intro n
  induction n with
  | zero =>
    intro s ha htot
    simp [runSender]
  | succ n ih =>
    intro s ha htot
    obtain ⟨ci, sa, tm⟩ := s
    simp only at ha htot ⊢
    subst ha
    have hlt : ci < totalChunksOf asset.length := by omega
    by_cases hE : ci + 1 < totalChunksOf asset.length
    · have hstep : sendChunk asset goodObs ⟨ci, true, tm⟩ =
          (⟨ci + 1, true, some SEND_INTERVAL_MS⟩,
           [Msg.chunk ci (chunkSlice asset ci)]) := by
        simp [sendChunk, goodObs, HIGH_WATER_MARK, hE, Nat.not_le.mpr hlt]
      rw [List.replicate_succ]
      simp only [runSender, hstep]
      rw [show (⟨ci + 1, true, some SEND_INTERVAL_MS⟩ : SenderState) =
        ({ chunkIndex := ci + 1, streamingActive := true,
           chunkTimeout := some SEND_INTERVAL_MS } : SenderState) from rfl] at *
      rw [ih { chunkIndex := ci + 1, streamingActive := true,
               chunkTimeout := some SEND_INTERVAL_MS } rfl (by simp; omega)]
      rw [List.range'_succ]
      simp
    · have hn : n = 0 := by omega
      subst hn
      have hstep : sendChunk asset goodObs ⟨ci, true, tm⟩ =
          (⟨ci + 1, true, none⟩, [Msg.chunk ci (chunkSlice asset ci)]) := by
        simp [sendChunk, goodObs, HIGH_WATER_MARK, hE, Nat.not_le.mpr hlt]
      rw [List.replicate_succ]
      simp only [runSender, hstep, List.replicate]
      simp [List.range']

/-! ## Theorems: completion message (claim C1) -/

/-- C1: the claim (matching the spec and the repository's protocol docs)
says that after the final chunk the sender sends exactly one complete
message.  In the code, sending the final chunk makes `chunkIndex` equal
`totalChunks`, the reschedule guard `chunkIndex < totalChunks` then refuses
to arm the timer, and `sendChunk` is never invoked again — so the
`complete` branch is unreachable and, for every nonempty asset and every
sequence of observations (uninterrupted runs included), no `complete`
message is ever sent. -/
theorem c1_complete_never_sent (asset : List Nat) (h : asset ≠ []) :
    ∀ obs : List Obs, Msg.complete ∉ streamSession asset obs := by
  intro obs
  simp only [streamSession, metadataMsg, List.mem_cons]
  push_neg
  exact ⟨by simp, runSender_no_complete asset obs senderInitState
    (totalChunksOf_pos asset h)⟩

/-- C1 witness: a 1-byte asset streamed without interruption emits no
complete message. -/
theorem c1_complete_never_sent_witness :
    ([7] : List Nat) ≠ [] ∧
    Msg.complete ∉ streamSession [7] (List.replicate 3 goodObs) :=
  ⟨by simp, c1_complete_never_sent [7] (by simp) (List.replicate 3 goodObs)⟩

/-! ## Theorems: metadata and chunk order (claim C5) -/

/-- C5: for every asset, an uninterrupted session first sends one metadata
message carrying `totalSize = totalBytes`,
`totalChunks = ceil(totalBytes / 65536)` and `chunkSize = 65536`, then the
chunks in strictly increasing index order exactly once each, chunk `i`
being the byte slice from `i * chunkSize` to
`min((i+1) * chunkSize, totalBytes)`; a 200,000-byte asset yields
`totalChunks = 4` with chunk sizes 65536, 65536, 65536, 3392 in order. -/
theorem c5_metadata_then_chunks_in_order (asset : List Nat) :
    streamSession asset (List.replicate (totalChunksOf asset.length) goodObs) =
      Msg.metadata asset.length (totalChunksOf asset.length) CHUNK_SIZE ::
        (List.range (totalChunksOf asset.length)).map
          (fun i => Msg.chunk i (chunkSlice asset i)) ∧
    totalChunksOf 200000 = 4 ∧
    (List.range 4).map
        (fun i => (chunkSlice (List.replicate 200000 0) i).length) =
      [65536, 65536, 65536, 3392] := by
  refine ⟨?_, ?_, ?_⟩
  · simp only [streamSession, metadataMsg, List.cons.injEq, true_and]
    rw [runSender_good asset (totalChunksOf asset.length) senderInitState rfl
      (by simp [senderInitState])]
    rw [List.range_eq_range']
    simp [senderInitState]
  · norm_num [totalChunksOf, CHUNK_SIZE]
  · have h4 : List.range 4 = [0, 1, 2, 3] := by decide
    rw [h4]
    simp only [List.map_cons, List.map_nil, chunkSlice, CHUNK_SIZE,
      List.length_take, List.length_drop, List.length_replicate]
    norm_num

/-! ## Theorems: flow control (claim C7) -/

/-- C7: with the channel open, the connection healthy and streaming active,
an invocation of `sendChunk` at cursor `i < totalChunks` with the
queued-bytes gauge at or above the 262144-byte high-water mark sends
nothing, leaves the cursor at `i` and arms the fixed 50ms recheck timer;
with the gauge strictly below the mark (and the send not throwing) it sends
exactly chunk `i` and advances the cursor to `i + 1`; and along every run,
whatever the observations, the chunk indices sent are exactly the
consecutive range from the initial cursor — no index skipped, none sent
twice. -/
theorem c7_flow_control :
    (∀ (asset : List Nat) (o : Obs) (s : SenderState),
      s.streamingActive = true → o.channelOpen = true → o.connOk = true →
      s.chunkIndex < totalChunksOf asset.length →
      HIGH_WATER_MARK ≤ o.bufferedAmount →
      sendChunk asset o s = ({ s with chunkTimeout := some SEND_INTERVAL_MS }, [])) ∧
    (∀ (asset : List Nat) (o : Obs) (s : SenderState),
      s.streamingActive = true → o.channelOpen = true → o.connOk = true →
      s.chunkIndex < totalChunksOf asset.length →
      o.bufferedAmount < HIGH_WATER_MARK → o.sendThrows = false →
      (sendChunk asset o s).2 = [Msg.chunk s.chunkIndex (chunkSlice asset s.chunkIndex)] ∧
      (sendChunk asset o s).1.chunkIndex = s.chunkIndex + 1) ∧
    (∀ (asset : List Nat) (obs : List Obs),
      sentIndices (streamSession asset obs) =
        List.range ((runSender asset senderInitState obs).1.chunkIndex)) := by
  refine ⟨?_, ?_, ?_⟩
  · intro asset o s ha ho hc hlt hhw
    simp [sendChunk, ha, ho, hc, Nat.not_le.mpr hlt, Nat.not_lt.mpr hhw, hlt]
  · intro asset o s ha ho hc hlt hbuf hth
    constructor <;>
      · simp [sendChunk, ha, ho, hc, Nat.not_le.mpr hlt, hbuf, hth]
        split_ifs <;> rfl
  · intro asset obs
    obtain ⟨hle, hm⟩ := runSender_indices asset obs senderInitState
    simp only [streamSession, sentIndices, List.filterMap_cons, metadataMsg]
    rw [← sentIndices, hm]
    simp [senderInitState, List.range_eq_range']

/-- C7 witness: at the congested observation (gauge exactly at the
high-water mark) the first invocation on a 1-byte asset defers — nothing
sent, cursor still 0, recheck timer armed — and at the uncongested
observation it sends chunk 0 and advances the cursor. -/
theorem c7_flow_control_witness :
    sendChunk [7] congestedObs senderInitState =
      ({ senderInitState with chunkTimeout := some SEND_INTERVAL_MS }, []) ∧
    (sendChunk [7] goodObs senderInitState).2 =
      [Msg.chunk 0 (chunkSlice [7] 0)] ∧
    (sendChunk [7] goodObs senderInitState).1.chunkIndex = 1 :=
  ⟨c7_flow_control.1 [7] congestedObs senderInitState rfl rfl rfl (by decide)
      (by decide),
    (c7_flow_control.2.1 [7] goodObs senderInitState rfl rfl rfl (by decide)
      (by decide) rfl).1,
    (c7_flow_control.2.1 [7] goodObs senderInitState rfl rfl rfl (by decide)
      (by decide) rfl).2⟩

/-! ## Decoder lemmas -/

/-- A `tryDecode` call that returns a decoded unit replaced the decoded
buffer with exactly that unit, published its duration, and recorded the
snapshot's byte size as the new last-decoded baseline, touching nothing
else. -/
theorem tryDecode_success_spec (decodeFn : List Nat → Option AudioBuf)
    (hasCtx forceMode : Bool) (s s' : DecoderState) (buf : AudioBuf)
    (h : tryDecode decodeFn hasCtx forceMode s = (s', some buf)) :
    s'.decodedBuffers = [buf] ∧ s'.bufferedSeconds = buf.duration ∧
    s'.lastDecodedBytes = (s.accumulatedBuffer.getD []).length ∧
    s'.rawChunks = s.rawChunks ∧ s'.accumulatedBuffer = s.accumulatedBuffer ∧
    s'.isDecoding = s.isDecoding := by
  simp only [tryDecode] at h
  split_ifs at h with h1 h2
  · injection h with hs hb
    exact Option.noConfusion hb
  · rcases hfn : decodeFn (s.accumulatedBuffer.getD []) with _ | a <;>
      rw [hfn] at h
    · injection h with hs hb
      exact Option.noConfusion hb
    · injection h with hs hb
      injection hb with hab
      subst hab
      rw [← hs]
      simp
  · injection h with hs hb
    exact Option.noConfusion hb

/-- A `tryDecode` call whose platform decode fails leaves the decoder state
fully unchanged and returns no unit — the failure is caught, not
propagated. -/
theorem tryDecode_failure_spec (decodeFn : List Nat → Option AudioBuf)
    (hasCtx forceMode : Bool) (s : DecoderState)
    (h : decodeFn (s.accumulatedBuffer.getD []) = none) :
    tryDecode decodeFn hasCtx forceMode s = (s, none) := by
  simp only [tryDecode]
  split_ifs with h1 h2 <;> simp [h]

/-- Under the session invariant, a `tryDecode` call never decreases the
last-decoded baseline and preserves the invariant. -/
theorem tryDecode_mono (decodeFn : List Nat → Option AudioBuf)
    (hasCtx forceMode : Bool) (s : DecoderState) (hinv : decoderInv s) :
    s.lastDecodedBytes ≤ (tryDecode decodeFn hasCtx forceMode s).1.lastDecodedBytes ∧
    decoderInv (tryDecode decodeFn hasCtx forceMode s).1 := by
  simp only [tryDecode]
  split_ifs with h1 h2
  · exact ⟨le_refl _, hinv⟩
  · rcases hfn : decodeFn (s.accumulatedBuffer.getD []) with _ | a <;>
      simp only [hfn]
    · exact ⟨le_refl _, hinv⟩
    · refine ⟨hinv.1, ?_, ?_⟩
      · simp
      · rcases hinv.2 with hnone | hflat
        · exact Or.inl hnone
        · exact Or.inr hflat
  · exact ⟨le_refl _, hinv⟩

/-- Under the session invariant, an `addChunk` call never decreases the
last-decoded baseline and preserves the invariant (the accumulation only
grows, so a forced or growth-triggered decode can only move the baseline
up). -/
theorem addChunk_mono (decodeFn : List Nat → Option AudioBuf) (hasCtx : Bool)
    (chunk : List Nat) (s : DecoderState) (hinv : decoderInv s) :
    s.lastDecodedBytes ≤ (addChunk decodeFn hasCtx chunk s).lastDecodedBytes ∧
    decoderInv (addChunk decodeFn hasCtx chunk s) := by
  simp only [addChunk, accumulateChunks]
  set s1 : DecoderState :=
    { s with rawChunks := s.rawChunks ++ [chunk]
             accumulatedBuffer := some (s.rawChunks ++ [chunk]).flatten
             bufferedSeconds := if s.decodedBuffers.length = 0
               then estimateBufferedDuration ((s.rawChunks ++ [chunk]).map List.length).sum
               else s.bufferedSeconds } with hs1
  have hlen : (s.accumulatedBuffer.getD []).length ≤ (s.rawChunks ++ [chunk]).flatten.length := by
    rcases hinv.2 with hnone | hflat
    · simp [hnone]
    · simp [hflat, List.flatten_append]
  have hinv1 : decoderInv s1 := by
    constructor
    · simp only [hs1, Option.getD_some]
      exact le_trans hinv.1 hlen
    · right
      simp [hs1]
  have hmono1 : s.lastDecodedBytes = s1.lastDecodedBytes := by
    simp [hs1]
  split_ifs with h
  · have := tryDecode_mono decodeFn hasCtx false s1 hinv1
    exact ⟨hmono1 ▸ this.1, this.2⟩
  · exact ⟨le_of_eq hmono1, hinv1⟩

/-! ## Theorems: decode effects (claim C9) -/

/-- C9: a successful decode attempt replaces the decoded audio unit with the
new result and sets the last-decoded baseline to the snapshot's byte size; a
failed decode attempt returns normally (no exception) with the state fully
unchanged; and starting from the initial state, the session invariant holds
and both `tryDecode` and `addChunk` keep the last-decoded baseline
non-decreasing. -/
theorem c9_decode_attempt_effects :
    (∀ (decodeFn : List Nat → Option AudioBuf) (hasCtx forceMode : Bool)
        (s s' : DecoderState) (buf : AudioBuf),
      tryDecode decodeFn hasCtx forceMode s = (s', some buf) →
      s'.decodedBuffers = [buf] ∧
      s'.lastDecodedBytes = (s.accumulatedBuffer.getD []).length) ∧
    (∀ (decodeFn : List Nat → Option AudioBuf) (hasCtx forceMode : Bool)
        (s : DecoderState),
      decodeFn (s.accumulatedBuffer.getD []) = none →
      tryDecode decodeFn hasCtx forceMode s = (s, none)) ∧
    decoderInv decoderInitState ∧
    (∀ (decodeFn : List Nat → Option AudioBuf) (hasCtx forceMode : Bool)
        (s : DecoderState), decoderInv s →
      s.lastDecodedBytes ≤ (tryDecode decodeFn hasCtx forceMode s).1.lastDecodedBytes) ∧
    (∀ (decodeFn : List Nat → Option AudioBuf) (hasCtx : Bool)
        (chunk : List Nat) (s : DecoderState), decoderInv s →
      s.lastDecodedBytes ≤ (addChunk decodeFn hasCtx chunk s).lastDecodedBytes ∧
      decoderInv (addChunk decodeFn hasCtx chunk s)) :=
  ⟨fun decodeFn hasCtx forceMode s s' buf h =>
    ⟨(tryDecode_success_spec decodeFn hasCtx forceMode s s' buf h).1,
     (tryDecode_success_spec decodeFn hasCtx forceMode s s' buf h).2.2.1⟩,
   fun decodeFn hasCtx forceMode s h =>
    tryDecode_failure_spec decodeFn hasCtx forceMode s h,
   ⟨by simp [decoderInitState], Or.inl rfl⟩,
   fun decodeFn hasCtx forceMode s hinv =>
    (tryDecode_mono decodeFn hasCtx forceMode s hinv).1,
   fun decodeFn hasCtx chunk s hinv =>
    addChunk_mono decodeFn hasCtx chunk s hinv⟩

/-- C9 witness: a successful decode of the 1-byte accumulation replaces the
decoded unit and records the snapshot size 1; a failing decode leaves the
same state untouched; and adding a chunk to it cannot decrease the
baseline. -/
theorem c9_decode_attempt_effects_witness :
    demoDecodedState.decodedBuffers = [demoAudioBuf] ∧
    demoDecodedState.lastDecodedBytes = (demoAccState.accumulatedBuffer.getD []).length ∧
    tryDecode demoDecodeFailFn true true demoAccState = (demoAccState, none) ∧
    demoAccState.lastDecodedBytes ≤
      (addChunk demoDecodeFailFn true [2] demoAccState).lastDecodedBytes :=
  ⟨(c9_decode_attempt_effects.1 demoDecodeOkFn true true demoAccState
      demoDecodedState demoAudioBuf rfl).1,
   (c9_decode_attempt_effects.1 demoDecodeOkFn true true demoAccState
      demoDecodedState demoAudioBuf rfl).2,
   c9_decode_attempt_effects.2.1 demoDecodeFailFn true true demoAccState rfl,
   (c9_decode_attempt_effects.2.2.2.2 demoDecodeFailFn true [2] demoAccState
      ⟨by simp [demoAccState], Or.inr (by simp [demoAccState])⟩).1⟩

end AudioStreaming
